import Mathlib

/-
Shallow embedding of the model-description hierarchy of the python-imfit
repository (src/imfit/model.py and src/imfit/psf.py).

Conventions of the embedding:
  - Python float values are modelled as exact rationals.
  - Python exceptions are modelled by the PyError type below; a method that can
    raise returns an Except PyError result.  The taxonomy of the specification
    maps onto concrete Python exception classes as follows: ValidationError and
    InvalidTypeError are raised as ValueError or bare Exception in the source,
    DuplicateNameError and NotFoundError are raised as KeyError.
  - Methods that mutate an object and can also raise are modelled as returning
    a pair of the exception outcome and the post-state, so that the post-state
    on the error path is visible (the source raises before mutating).
  - isinstance checks of the source are vacuously satisfied here because the
    embedding is typed; they are noted in comments where they occur.
-/

namespace Imfit

/-- Python exception values, carrying the message built by the source. -/
inductive PyError where
  | valueError (msg : String)
  | keyError (msg : String)
  | indexError (msg : String)
  | pyException (msg : String)
deriving Repr, DecidableEq

/-- State of a ParameterDescription object: model.py lines 14 to 118.
The private field of the source is called name, accessed via a property. -/
structure ParameterDescription where
  name : String
  value : ℚ
  limits : Option (ℚ × ℚ)
  fixed : Bool
deriving Repr, DecidableEq

instance : Inhabited ParameterDescription :=
  ⟨{ name := "", value := 0, limits := none, fixed := false }⟩

/-- ParameterDescription.setValue, model.py lines 28 to 52.  When a limits
pair is supplied and the value falls outside it, the offending bound is
replaced by the value (the source mutates the caller-supplied list in place;
in value semantics the adjusted pair is simply stored).  Never raises. -/
def ParameterDescription.setValue (p : ParameterDescription) (value : ℚ)
    (limits : Option (ℚ × ℚ)) (fixed : Bool) : ParameterDescription :=
  let limits2 : Option (ℚ × ℚ) :=
    match limits with
    | none => none
    | some (lo, hi) =>
      if value < lo then some (value, hi)
      else if value > hi then some (lo, value)
      else some (lo, hi)
  { p with value := value, fixed := fixed, limits := limits2 }

/-- ParameterDescription.__init__, model.py lines 15 to 17: stores the name
and delegates to setValue. -/
def ParameterDescription.create (name : String) (value : ℚ)
    (limits : Option (ℚ × ℚ)) (fixed : Bool) : ParameterDescription :=
  ParameterDescription.setValue
    { name := name, value := 0, limits := none, fixed := false }
    value limits fixed

/-- ParameterDescription.setTolerance, model.py lines 55 to 69. -/
def ParameterDescription.setTolerance (p : ParameterDescription) (tol : ℚ) :
    Except PyError ParameterDescription :=
  if tol > 1 ∨ tol < 0 then
    .error (.pyException "Tolerance must be between 0.0 and 1.0.")
  else
    .ok { p with limits := some (p.value * (1 - tol), p.value * (1 + tol)) }

/-- ParameterDescription.setLimits, model.py lines 90 to 109.  The source
raises when v1 is not strictly below v2; the two value-clamping branches at
lines 104 to 107 sit after the raise statement and are dead code, so they do
not appear here.  The trailing Python 2 print statement is a no-op for state. -/
def ParameterDescription.setLimits (p : ParameterDescription) (v1 v2 : ℚ) :
    Except PyError ParameterDescription :=
  if v1 ≥ v2 then .error (.pyException "v2 must be larger than v1.")
  else .ok { p with limits := some (v1, v2) }

/-- ParameterDescription.setLimitsRel, model.py lines 72 to 87. -/
def ParameterDescription.setLimitsRel (p : ParameterDescription) (i1 i2 : ℚ) :
    Except PyError ParameterDescription :=
  if i1 < 0 ∨ i2 < 0 then
    .error (.pyException "Limit intervals must be positive.")
  else p.setLimits (p.value - i1) (p.value + i2)

/-- The invariant claimed for Parameter limits: whenever limits is set, the
pair is ordered and the stored value lies inside it. -/
def ParamInvariant (p : ParameterDescription) : Prop :=
  match p.limits with
  | none => True
  | some (lo, hi) => lo ≤ hi ∧ lo ≤ p.value ∧ p.value ≤ hi

/-- State of a FunctionDescription object: model.py lines 122 to 175. -/
structure FunctionDescription where
  funcType : String
  name : String
  _parameters : List ParameterDescription
deriving Repr, DecidableEq

/-- FunctionDescription.addParameter, model.py lines 134 to 137.  The
isinstance guard (raise ValueError when p is not a ParameterDescription) is
vacuously satisfied in this typed embedding, so the method always appends. -/
def FunctionDescription.addParameter (f : FunctionDescription)
    (p : ParameterDescription) : FunctionDescription :=
  { f with _parameters := f._parameters ++ [p] }

/-- FunctionDescription.parameterList, model.py lines 140 to 149: builds a
fresh list holding the same parameters, which in value semantics is the
parameter list itself. -/
def FunctionDescription.parameterList (f : FunctionDescription) :
    List ParameterDescription :=
  f._parameters

/-- FunctionDescription.__getitem__ with a string key, model.py lines
163 to 169: linear search of the parameters by name. -/
def FunctionDescription.getitem (f : FunctionDescription) (key : String) :
    Except PyError ParameterDescription :=
  match f._parameters.find? (fun p => p.name == key) with
  | some p => .ok p
  | none => .error (.keyError ("Parameter " ++ key ++ " not found."))

/-- State of a FunctionSetDescription object: model.py lines 179 to 267. -/
structure FunctionSetDescription where
  name : String
  x0 : ParameterDescription
  y0 : ParameterDescription
  _functions : List FunctionDescription
deriving Repr, DecidableEq

/-- FunctionSetDescription.__init__ with functions=None, model.py lines
180 to 187: fresh X0 and Y0 parameters at value 0 and an empty function list.
The optional bulk-add loop just calls addFunction repeatedly. -/
def FunctionSetDescription.create (name : String) : FunctionSetDescription :=
  { name := name,
    x0 := ParameterDescription.create "X0" 0 none false,
    y0 := ParameterDescription.create "Y0" 0 none false,
    _functions := [] }

/-- FunctionSetDescription._contains, model.py lines 206 to 210: linear scan
for a function with the given name. -/
def FunctionSetDescription._contains (fs : FunctionSetDescription)
    (name : String) : Bool :=
  fs._functions.any (fun f => f.name == name)

/-- FunctionSetDescription.addFunction, model.py lines 190 to 203.  The
isinstance guard is vacuous here (typed embedding).  The duplicate-name check
raises KeyError before the append, so on the error path the state is the
unchanged receiver: the result pairs the exception outcome with the
post-state. -/
def FunctionSetDescription.addFunction (fs : FunctionSetDescription)
    (f : FunctionDescription) : Except PyError Unit × FunctionSetDescription :=
  if fs._contains f.name then
    (.error (.keyError ("Function named " ++ f.name ++ " already exists.")), fs)
  else
    (.ok (), { fs with _functions := fs._functions ++ [f] })

/-- FunctionSetDescription.functionList, model.py lines 213 to 222. -/
def FunctionSetDescription.functionList (fs : FunctionSetDescription) :
    List String :=
  fs._functions.map (fun f => f.funcType)

/-- FunctionSetDescription.parameterList, model.py lines 225 to 239: starts
from x0 and y0 and extends with each function parameter list in order. -/
def FunctionSetDescription.parameterList (fs : FunctionSetDescription) :
    List ParameterDescription :=
  fs._functions.foldl (fun params f => params ++ f.parameterList) [fs.x0, fs.y0]

/-- FunctionSetDescription.__getitem__ with a string key, model.py lines
253 to 259. -/
def FunctionSetDescription.getitem (fs : FunctionSetDescription)
    (key : String) : Except PyError FunctionDescription :=
  match fs._functions.find? (fun f => f.name == key) with
  | some f => .ok f
  | none => .error (.keyError ("Function " ++ key ++ " not found."))

/-- FunctionSetDescription.__getitem__ with a non-string key, model.py lines
254 to 255: the isinstance check fails and KeyError is raised at once. -/
def FunctionSetDescription.getitemInt (_fs : FunctionSetDescription)
    (_i : Nat) : Except PyError FunctionDescription :=
  .error (.keyError "Function must be a string.")

/-- State of a ModelDescription object: model.py lines 271 to 396. -/
structure ModelDescription where
  options : List (String × ℚ)
  _functionSets : List FunctionSetDescription
deriving Repr, DecidableEq

/-- ModelDescription._contains, model.py lines 322 to 326. -/
def ModelDescription._contains (m : ModelDescription) (name : String) : Bool :=
  m._functionSets.any (fun fs => fs.name == name)

/-- ModelDescription.addFunctionSet, model.py lines 306 to 319, modelled like
FunctionSetDescription.addFunction. -/
def ModelDescription.addFunctionSet (m : ModelDescription)
    (fs : FunctionSetDescription) : Except PyError Unit × ModelDescription :=
  if m._contains fs.name then
    (.error (.keyError ("FunctionSet named " ++ fs.name ++ " already exists.")), m)
  else
    (.ok (), { m with _functionSets := m._functionSets ++ [fs] })

/-- ModelDescription.__getitem__ with a string key, model.py lines 384 to 390. -/
def ModelDescription.getitem (m : ModelDescription) (key : String) :
    Except PyError FunctionSetDescription :=
  match m._functionSets.find? (fun fs => fs.name == key) with
  | some fs => .ok fs
  | none => .error (.keyError ("FunctionSet " ++ key ++ " not found."))

/-- ModelDescription.parameterList, model.py lines 357 to 369. -/
def ModelDescription.parameterList (m : ModelDescription) :
    List ParameterDescription :=
  m._functionSets.foldl (fun params fs => params ++ fs.parameterList) []

/-- ModelDescription.functionList, model.py lines 342 to 354. -/
def ModelDescription.functionList (m : ModelDescription) : List String :=
  m._functionSets.foldl (fun funcs fs => funcs ++ fs.functionList) []

/-- ModelDescription.functionSetIndices, model.py lines 329 to 339.  The loop
body evaluates self.functionSets, but no attribute of that name exists (the
field is _functionSets), so Python falls back to __getattr__, which delegates
to __getitem__ and searches the function sets for one NAMED functionSets;
if that lookup somehow succeeded, the subscript [i] with an integer key would
hit FunctionSetDescription.__getitem__ and raise KeyError anyway.  The append
of len(...functions) is therefore unreachable whenever the loop runs. -/
def ModelDescription.functionSetIndices (m : ModelDescription) :
    Except PyError (List Nat) := do
  let mut indices : List Nat := [0]
  for i in List.range (m._functionSets.length - 1) do
    let fsAttr ← m.getitem "functionSets"
    let f ← fsAttr.getitemInt i
    indices := indices ++ [f._parameters.length]
  return indices

/-- Argument passed to the SimpleModelDescription constructor: nothing, an
existing ModelDescription, or a value of any other type (carrying the name
that would be printed in the error message). -/
inductive SimpleModelArg where
  | noArg
  | fromModel (m : ModelDescription)
  | other (typeName : String)

/-- SimpleModelDescription.__init__, model.py lines 419 to 428.  The parent
constructor starts from empty options and no function sets; a supplied model
must hold exactly one function set, and its single set is shallow-copied
(identity in value semantics) into the new model via addFunctionSet, which
cannot hit the duplicate check on an empty model. -/
def SimpleModelDescription.init : SimpleModelArg → Except PyError ModelDescription
  | .fromModel m =>
    match m._functionSets with
    | [fs] => .ok (({ options := [], _functionSets := [] } :
        ModelDescription).addFunctionSet fs).2
    | _ => .error (.valueError "Original model must have only one function set.")
  | .noArg => .ok (({ options := [], _functionSets := [] } :
      ModelDescription).addFunctionSet (FunctionSetDescription.create "fs")).2
  | .other t => .error (.valueError ("Invalid type: " ++ t))

/-- SimpleModelDescription.__getattr__, model.py lines 461 to 462: delegates
the lookup to the single function set.  Indexing _functionSets[0] on an empty
model would raise IndexError; the constructor always installs one set. -/
def SimpleModelDescription.getattr (m : ModelDescription) (attr : String) :
    Except PyError FunctionDescription :=
  match m._functionSets with
  | [] => .error (.indexError "list index out of range")
  | fs :: _ => fs.getitem attr

/-
Heap-level model for the copy semantics (model.py __deepcopy__ methods at
lines 172 to 175, 262 to 267 and 393 to 396).  ParameterDescription objects
live in a store indexed by allocation order; Functions, FunctionSets and
Models hold addresses of their parameters.  copy(p) on a parameter allocates
a fresh cell holding the same field values (the fields are scalars here, so a
shallow copy duplicates them all), and deepcopy of a container copies every
reachable parameter into fresh cells, left to right.
-/

/-- Heap of ParameterDescription objects; the address of a cell is its index. -/
abbrev Store := List ParameterDescription

/-- Dereference an address (out-of-range reads return the default cell; the
theorems only read valid addresses). -/
def Store.read (s : Store) (a : Nat) : ParameterDescription :=
  (s[a]?).getD default

/-- Overwrite the cell at an address; this models any in-place parameter
mutation (setValue, setLimits and the rest all only rebind fields of the
object itself). -/
def Store.write (s : Store) (a : Nat) (p : ParameterDescription) : Store :=
  s.set a p

/-- Copy the parameters at the given addresses into fresh cells, left to
right, returning the fresh addresses; this is the heap content of the python
expression [copy(p) for p in parameters]. -/
def copyParams : Store → List Nat → List Nat × Store
  | s, [] => ([], s)
  | s, a :: rest =>
    let s1 := s ++ [Store.read s a]
    let res := copyParams s1 rest
    (s.length :: res.1, res.2)

/-- Heap-level FunctionDescription: its parameters are store addresses. -/
structure HFunctionDescription where
  funcType : String
  name : String
  params : List Nat
deriving Repr, DecidableEq

/-- All parameter addresses reachable from a function. -/
def HFunctionDescription.addrs (f : HFunctionDescription) : List Nat :=
  f.params

/-- FunctionDescription.__deepcopy__, model.py lines 172 to 175: a new
function with the same funcType and name whose parameters are shallow copies
in fresh cells. -/
def HFunctionDescription.deepcopy (s : Store) (f : HFunctionDescription) :
    HFunctionDescription × Store :=
  let res := copyParams s f.params
  ({ funcType := f.funcType, name := f.name, params := res.1 }, res.2)

/-- deepcopy of a list of functions, threading the store left to right. -/
def deepcopyFunctionList : Store → List HFunctionDescription →
    List HFunctionDescription × Store
  | s, [] => ([], s)
  | s, f :: rest =>
    let r1 := HFunctionDescription.deepcopy s f
    let r2 := deepcopyFunctionList r1.2 rest
    (r1.1 :: r2.1, r2.2)

/-- Heap-level FunctionSetDescription. -/
structure HFunctionSetDescription where
  name : String
  x0 : Nat
  y0 : Nat
  functions : List HFunctionDescription
deriving Repr, DecidableEq

/-- All parameter addresses reachable from a function set: x0, y0, then each
function in order. -/
def HFunctionSetDescription.addrs (fs : HFunctionSetDescription) : List Nat :=
  fs.x0 :: fs.y0 :: (fs.functions.map HFunctionDescription.addrs).flatten

/-- FunctionSetDescription.__deepcopy__, model.py lines 262 to 267: copy x0
and y0 into fresh cells, then deep-copy the function list.  The constructor
call at line 263 also allocates throwaway X0 and Y0 cells that are replaced
at once and never reachable again; the embedding omits the garbage cells. -/
def HFunctionSetDescription.deepcopy (s : Store) (fs : HFunctionSetDescription) :
    HFunctionSetDescription × Store :=
  let x0c := s.length
  let s1 := s ++ [Store.read s fs.x0]
  let y0c := s1.length
  let s2 := s1 ++ [Store.read s1 fs.y0]
  let rf := deepcopyFunctionList s2 fs.functions
  ({ name := fs.name, x0 := x0c, y0 := y0c, functions := rf.1 }, rf.2)

/-- Heap-level ModelDescription. -/
structure HModelDescription where
  options : List (String × ℚ)
  functionSets : List HFunctionSetDescription
deriving Repr, DecidableEq

/-- All parameter addresses reachable from a model. -/
def HModelDescription.addrs (m : HModelDescription) : List Nat :=
  (m.functionSets.map HFunctionSetDescription.addrs).flatten

/-- deepcopy of a list of function sets, threading the store. -/
def deepcopyFunctionSetList : Store → List HFunctionSetDescription →
    List HFunctionSetDescription × Store
  | s, [] => ([], s)
  | s, fs :: rest =>
    let r1 := HFunctionSetDescription.deepcopy s fs
    let r2 := deepcopyFunctionSetList r1.2 rest
    (r1.1 :: r2.1, r2.2)

/-- ModelDescription.__deepcopy__, model.py lines 393 to 396: a fresh model
(whose constructor leaves options empty, so the options map is dropped) with
deep-copied function sets. -/
def HModelDescription.deepcopy (s : Store) (m : HModelDescription) :
    HModelDescription × Store :=
  let r := deepcopyFunctionSetList s m.functionSets
  ({ options := [], functionSets := r.1 }, r.2)

/-- Independence of a copy from its original: reading the copy addresses in
the post-copy store gives the same parameter values as reading the original
addresses in the pre-copy store; the original values are untouched by the
copy; and overwriting any address of one side never changes a read on the
other side. -/
def IndependentCopy (s s2 : Store) (origA copyA : List Nat) : Prop :=
  copyA.map (Store.read s2) = origA.map (Store.read s)
  ∧ origA.map (Store.read s2) = origA.map (Store.read s)
  ∧ (∀ a ∈ copyA, ∀ q : ParameterDescription, ∀ b ∈ origA,
      Store.read (Store.write s2 a q) b = Store.read s2 b)
  ∧ (∀ b ∈ origA, ∀ q : ParameterDescription, ∀ a ∈ copyA,
      Store.read (Store.write s2 b q) a = Store.read s2 a)

/-
Model of the validation phase of gaussian_psf (psf.py lines 17 to 68).  Only
the control flow up to the binding of sigma is in scope: the rest of the
function builds a model and calls the external fitting engine.  The sigma
binding is recorded symbolically, because the FWHM conversion factor
2*sqrt(2*ln 2) is irrational.
-/

/-- How gaussian_psf binds sigma: from the FWHM conversion or directly. -/
inductive SigmaBinding where
  | fromFwhm (width : ℚ)
  | fromSigma (width : ℚ)
deriving Repr, DecidableEq

/-- Validation and sigma-binding phase of gaussian_psf, psf.py lines 48 to 55.
An even size raises ValueError.  For a type other than fwhm and sigma the
source builds ValueError at line 55 but never raises it, so control falls
through with sigma unbound: that path yields ok none rather than an error. -/
def gaussianPsfSigma (width : ℚ) (type : String) (size : Int) :
    Except PyError (Option SigmaBinding) :=
  if size % 2 ≠ 1 then .error (.valueError "Size must be an odd number.")
  else if type = "fwhm" then .ok (some (.fromFwhm width))
  else if type = "sigma" then .ok (some (.fromSigma width))
  else .ok none

/-
Theorems.
-/

/-- Folding list extension from an initial segment is the initial segment
followed by the flattened mapped lists (shape of every parameterList loop). -/
theorem foldl_append_eq_flatten {α β : Type} (g : α → List β) (l : List α)
    (init : List β) :
    l.foldl (fun acc x => acc ++ g x) init = init ++ (l.map g).flatten := by
  induction l generalizing init with
  | nil => simp
  | cons x xs ih => simp [ih]

/-- C1: parameterList on a FunctionSet is exactly x0, y0 followed by each
owned function parameter list in add-order (each function keeping its own
insertion order, as addParameter appends); on a Model it is the concatenation
of the function-set parameter lists in add-order. -/
theorem parameterList_order_spec (f : FunctionDescription)
    (p : ParameterDescription) (fs : FunctionSetDescription)
    (m : ModelDescription) :
    fs.parameterList
      = fs.x0 :: fs.y0 ::
          (fs._functions.map FunctionDescription.parameterList).flatten
    ∧ m.parameterList
      = (m._functionSets.map FunctionSetDescription.parameterList).flatten
    ∧ (f.addParameter p).parameterList = f.parameterList ++ [p] := by
  refine ⟨?_, ?_, ?_⟩
  · simp [FunctionSetDescription.parameterList, foldl_append_eq_flatten]
  · simp [ModelDescription.parameterList, foldl_append_eq_flatten]
  · simp [FunctionDescription.addParameter, FunctionDescription.parameterList]

/-- C2: adding a Function to a FunctionSet, or a FunctionSet to a Model,
whose name collides with an owned child fails with the duplicate-name
KeyError and returns the collection exactly as it was, while a fresh name
appends the child and succeeds (the isinstance guard being satisfied by
typing). -/
theorem addFunction_duplicate_spec (fs : FunctionSetDescription)
    (f : FunctionDescription) (m : ModelDescription)
    (g : FunctionSetDescription) :
    ((∃ h ∈ fs._functions, h.name = f.name) →
      fs.addFunction f
        = (.error (.keyError ("Function named " ++ f.name ++ " already exists.")),
           fs))
    ∧ ((∀ h ∈ fs._functions, h.name ≠ f.name) →
      fs.addFunction f
        = (.ok (), { fs with _functions := fs._functions ++ [f] }))
    ∧ ((∃ h ∈ m._functionSets, h.name = g.name) →
      m.addFunctionSet g
        = (.error (.keyError ("FunctionSet named " ++ g.name ++ " already exists.")),
           m))
    ∧ ((∀ h ∈ m._functionSets, h.name ≠ g.name) →
      m.addFunctionSet g
        = (.ok (), { m with _functionSets := m._functionSets ++ [g] })) := by
  refine ⟨?_, ?_, ?_, ?_⟩
  · intro hdup
    have hc : fs._contains f.name = true := by
      simp only [FunctionSetDescription._contains, List.any_eq_true, beq_iff_eq]
      exact hdup
    simp [FunctionSetDescription.addFunction, hc]
  · intro hfresh
    have hc : fs._contains f.name = false := by
      simp only [FunctionSetDescription._contains, List.any_eq_false, beq_iff_eq]
      exact hfresh
    simp [FunctionSetDescription.addFunction, hc]
  · intro hdup
    have hc : m._contains g.name = true := by
      simp only [ModelDescription._contains, List.any_eq_true, beq_iff_eq]
      exact hdup
    simp [ModelDescription.addFunctionSet, hc]
  · intro hfresh
    have hc : m._contains g.name = false := by
      simp only [ModelDescription._contains, List.any_eq_false, beq_iff_eq]
      exact hfresh
    simp [ModelDescription.addFunctionSet, hc]

/-- C2 witness: both outcomes at concrete inputs, for both levels. -/
theorem addFunction_duplicate_spec_witness :
    (FunctionSetDescription.create "s1").addFunction
        { funcType := "Gaussian", name := "g1", _parameters := [] }
      = (.ok (),
         { FunctionSetDescription.create "s1" with
            _functions := [{ funcType := "Gaussian", name := "g1",
                             _parameters := [] }] })
    ∧ ({ FunctionSetDescription.create "s1" with
          _functions := [{ funcType := "Gaussian", name := "g1",
                           _parameters := [] }] }).addFunction
          { funcType := "Moffat", name := "g1", _parameters := [] }
      = (.error (.keyError "Function named g1 already exists."),
         { FunctionSetDescription.create "s1" with
            _functions := [{ funcType := "Gaussian", name := "g1",
                             _parameters := [] }] })
    ∧ ({ options := [], _functionSets := [] } :
          ModelDescription).addFunctionSet (FunctionSetDescription.create "s1")
      = (.ok (), { options := [],
                   _functionSets := [FunctionSetDescription.create "s1"] })
    ∧ ({ options := [],
         _functionSets := [FunctionSetDescription.create "s1"] } :
          ModelDescription).addFunctionSet (FunctionSetDescription.create "s1")
      = (.error (.keyError "FunctionSet named s1 already exists."),
         { options := [],
           _functionSets := [FunctionSetDescription.create "s1"] }) := by
  refine ⟨?_, ?_, ?_, ?_⟩
  · exact (addFunction_duplicate_spec (FunctionSetDescription.create "s1")
      { funcType := "Gaussian", name := "g1", _parameters := [] }
      { options := [], _functionSets := [] }
      (FunctionSetDescription.create "s1")).2.1
      (by simp [FunctionSetDescription.create])
  · exact (addFunction_duplicate_spec
      { FunctionSetDescription.create "s1" with
          _functions := [{ funcType := "Gaussian", name := "g1",
                           _parameters := [] }] }
      { funcType := "Moffat", name := "g1", _parameters := [] }
      { options := [], _functionSets := [] }
      (FunctionSetDescription.create "s1")).1 (by simp)
  · exact (addFunction_duplicate_spec (FunctionSetDescription.create "s1")
      { funcType := "Gaussian", name := "g1", _parameters := [] }
      { options := [], _functionSets := [] }
      (FunctionSetDescription.create "s1")).2.2.2 (by simp)
  · exact (addFunction_duplicate_spec (FunctionSetDescription.create "s1")
      { funcType := "Gaussian", name := "g1", _parameters := [] }
      { options := [],
        _functionSets := [FunctionSetDescription.create "s1"] }
      (FunctionSetDescription.create "s1")).2.2.1
      (by exact ⟨FunctionSetDescription.create "s1", by simp, rfl⟩)

/-- C7: setTolerance rejects a tolerance outside the unit interval and
otherwise installs exactly the symmetric bounds value*(1-tol), value*(1+tol);
at value 1 and tolerance 1/5 the bounds are 4/5 and 6/5. -/
theorem setTolerance_spec (p : ParameterDescription) (tol : ℚ) :
    ((tol > 1 ∨ tol < 0) →
      p.setTolerance tol
        = .error (.pyException "Tolerance must be between 0.0 and 1.0."))
    ∧ (0 ≤ tol → tol ≤ 1 →
      p.setTolerance tol
        = .ok { p with limits := some (p.value * (1 - tol), p.value * (1 + tol)) })
    ∧ (ParameterDescription.create "p" 1 none false).setTolerance (1/5)
        = .ok { name := "p", value := 1, limits := some (4/5, 6/5),
                fixed := false } := by
  refine ⟨?_, ?_, ?_⟩
  · intro h; simp [ParameterDescription.setTolerance, h]
  · intro h0 h1
    rw [ParameterDescription.setTolerance, if_neg]
    push_neg
    exact ⟨h1, h0⟩
  · norm_num [ParameterDescription.setTolerance, ParameterDescription.create,
      ParameterDescription.setValue]

/-- C7 witness: the rejection branch at a concrete tolerance. -/
theorem setTolerance_spec_witness :
    (ParameterDescription.create "p" 1 none false).setTolerance 2
      = .error (.pyException "Tolerance must be between 0.0 and 1.0.")
    ∧ (ParameterDescription.create "p" 1 none false).setTolerance 1
      = .ok { name := "p", value := 1, limits := some (1 * (1 - 1), 1 * (1 + 1)),
              fixed := false } := by
  constructor
  · exact (setTolerance_spec (ParameterDescription.create "p" 1 none false)
      2).1 (by norm_num)
  · exact (setTolerance_spec (ParameterDescription.create "p" 1 none false)
      1).2.1 (by norm_num) (by norm_num)

/-- C8: setLimitsRel rejects a negative delta and otherwise behaves exactly
as setLimits at value - deltaLow and value + deltaHigh; at value 10 with
deltas 1/2 and 3/2 the limits become 19/2 and 23/2. -/
theorem setLimitsRel_spec (p : ParameterDescription) (i1 i2 : ℚ) :
    ((i1 < 0 ∨ i2 < 0) →
      p.setLimitsRel i1 i2
        = .error (.pyException "Limit intervals must be positive."))
    ∧ (0 ≤ i1 → 0 ≤ i2 →
      p.setLimitsRel i1 i2 = p.setLimits (p.value - i1) (p.value + i2))
    ∧ (ParameterDescription.create "p" 10 none false).setLimitsRel (1/2) (3/2)
        = .ok { name := "p", value := 10, limits := some (19/2, 23/2),
                fixed := false } := by
  refine ⟨?_, ?_, ?_⟩
  · intro h; simp [ParameterDescription.setLimitsRel, h]
  · intro h1 h2
    rw [ParameterDescription.setLimitsRel, if_neg]
    push_neg
    exact ⟨h1, h2⟩
  · norm_num [ParameterDescription.setLimitsRel, ParameterDescription.setLimits,
      ParameterDescription.create, ParameterDescription.setValue]

/-- C8 witness: the rejection branch and the delegation at concrete inputs. -/
theorem setLimitsRel_spec_witness :
    (ParameterDescription.create "p" 10 none false).setLimitsRel (-1) 1
      = .error (.pyException "Limit intervals must be positive.")
    ∧ (ParameterDescription.create "p" 10 none false).setLimitsRel 1 2
      = (ParameterDescription.create "p" 10 none false).setLimits (10 - 1) (10 + 2) := by
  constructor
  · exact (setLimitsRel_spec (ParameterDescription.create "p" 10 none false)
      (-1) 1).1 (by norm_num)
  · have h := (setLimitsRel_spec (ParameterDescription.create "p" 10 none false)
      1 2).2.1 (by norm_num) (by norm_num)
    simpa [ParameterDescription.create, ParameterDescription.setValue] using h

/-- C9: setValue with a limits pair stores the argument value unchanged and
widens the offending bound to the value instead of clamping: a value below
the lower bound replaces the lower bound, a value above the upper bound
(the pair being ordered, so that the first branch is not taken) replaces the
upper bound, and a value inside keeps the pair. -/
theorem setValue_widen_spec (p : ParameterDescription) (v lo hi : ℚ)
    (fx : Bool) :
    (p.setValue v (some (lo, hi)) fx).value = v
    ∧ (v < lo → (p.setValue v (some (lo, hi)) fx).limits = some (v, hi))
    ∧ (lo ≤ hi → hi < v → (p.setValue v (some (lo, hi)) fx).limits = some (lo, v))
    ∧ (lo ≤ v → v ≤ hi → (p.setValue v (some (lo, hi)) fx).limits = some (lo, hi)) := by
  refine ⟨?_, ?_, ?_, ?_⟩
  · simp [ParameterDescription.setValue]
  · intro h; simp [ParameterDescription.setValue, h]
  · intro h1 h2
    have hnl : ¬ v < lo := by linarith
    simp [ParameterDescription.setValue, hnl, h2]
  · intro h1 h2
    have hnl : ¬ v < lo := by linarith
    have hnh : ¬ v > hi := by linarith
    simp [ParameterDescription.setValue, hnl, hnh]

/-- C9 witness: all three branches at concrete inputs. -/
theorem setValue_widen_spec_witness :
    ((ParameterDescription.create "p" 0 none false).setValue 1 (some (2, 4)) false).limits
      = some (1, 4)
    ∧ ((ParameterDescription.create "p" 0 none false).setValue 5 (some (2, 4)) false).limits
      = some (2, 5)
    ∧ ((ParameterDescription.create "p" 0 none false).setValue 3 (some (2, 4)) false).limits
      = some (2, 4)
    ∧ ((ParameterDescription.create "p" 0 none false).setValue 5 (some (2, 4)) false).value
      = 5 := by
  refine ⟨?_, ?_, ?_, ?_⟩
  · exact (setValue_widen_spec (ParameterDescription.create "p" 0 none false)
      1 2 4 false).2.1 (by norm_num)
  · exact (setValue_widen_spec (ParameterDescription.create "p" 0 none false)
      5 2 4 false).2.2.1 (by norm_num) (by norm_num)
  · exact (setValue_widen_spec (ParameterDescription.create "p" 0 none false)
      3 2 4 false).2.2.2 (by norm_num) (by norm_num)
  · exact (setValue_widen_spec (ParameterDescription.create "p" 0 none false)
      5 2 4 false).1

/-- C10: gaussian_psf called with an odd size and a type that is neither
fwhm nor sigma does not raise the type-validation error: the ValueError is
built but never raised, so the validation phase returns with sigma unbound. -/
theorem gaussianPsf_badType_spec (width : ℚ) (type : String) (size : Int)
    (hodd : size % 2 = 1) (h1 : type ≠ "fwhm") (h2 : type ≠ "sigma") :
    gaussianPsfSigma width type size = .ok none := by
  simp [gaussianPsfSigma, hodd, h1, h2]

/-- C10 witness: a concrete bad type at the default odd size. -/
theorem gaussianPsf_badType_spec_witness :
    gaussianPsfSigma 5 "FWHM" 31 = .ok none :=
  gaussianPsf_badType_spec 5 "FWHM" 31 (by decide) (by decide) (by decide)

/-- C4 counterexample: the claimed invariant fails on the code.  setLimits
never revisits the stored value, so a parameter at value 10 accepts the
limits pair (0, 1) and ends up outside its own bounds. -/
theorem limits_invariant_counterexample :
    (ParameterDescription.create "p" 10 none false).setLimits 0 1
      = .ok { name := "p", value := 10, limits := some (0, 1), fixed := false }
    ∧ ¬ ParamInvariant
        { name := "p", value := 10, limits := some (0, 1), fixed := false } := by
  constructor
  · norm_num [ParameterDescription.create, ParameterDescription.setValue,
      ParameterDescription.setLimits]
  · intro h
    rw [ParamInvariant] at h
    norm_num at h

/-- C4 amended: after setValue the invariant holds whenever the supplied
limits pair is ordered (or absent); a successful setLimitsRel establishes it;
a successful setTolerance establishes it when the stored value is
nonnegative; a successful setLimits guarantees only that the new bounds are
strictly ordered and leaves the value unchanged, possibly outside them. -/
theorem limits_invariant_amended (p : ParameterDescription)
    (v lo hi tol i1 i2 v1 v2 : ℚ) (fx : Bool) :
    ParamInvariant (p.setValue v none fx)
    ∧ (lo ≤ hi → ParamInvariant (p.setValue v (some (lo, hi)) fx))
    ∧ (0 ≤ p.value → ∀ q, p.setTolerance tol = .ok q → ParamInvariant q)
    ∧ (∀ q, p.setLimitsRel i1 i2 = .ok q → ParamInvariant q)
    ∧ (∀ q, p.setLimits v1 v2 = .ok q →
        q.value = p.value ∧ ∀ l u, q.limits = some (l, u) → l < u) := by
  refine ⟨?_, ?_, ?_, ?_, ?_⟩
  · simp [ParameterDescription.setValue, ParamInvariant]
  · intro hord
    rw [ParameterDescription.setValue]
    by_cases hl : v < lo
    · simp only [hl, if_true, ParamInvariant]
      exact ⟨by linarith, le_refl v, by linarith⟩
    · by_cases hh : v > hi
      · simp only [hl, if_false, hh, if_true, ParamInvariant]
        exact ⟨by linarith, by linarith, le_refl v⟩
      · simp only [hl, if_false, hh, ParamInvariant]
        exact ⟨hord, by linarith, by linarith⟩
  · intro hv q hq
    rw [ParameterDescription.setTolerance] at hq
    by_cases hc : tol > 1 ∨ tol < 0
    · simp [hc] at hq
    · push_neg at hc
      obtain ⟨hc1, hc2⟩ := hc
      simp only [hc1.not_lt, hc2.not_lt, or_self, if_false, Except.ok.injEq] at hq
      subst hq
      refine ⟨?_, ?_, ?_⟩ <;> nlinarith
  · intro q hq
    rw [ParameterDescription.setLimitsRel] at hq
    by_cases hc : i1 < 0 ∨ i2 < 0
    · simp [hc] at hq
    · push_neg at hc
      obtain ⟨hc1, hc2⟩ := hc
      simp only [hc1.not_lt, hc2.not_lt, or_self, if_false] at hq
      rw [ParameterDescription.setLimits] at hq
      by_cases hord : p.value - i1 ≥ p.value + i2
      · simp [hord] at hq
      · simp only [hord, if_false, Except.ok.injEq] at hq
        subst hq
        refine ⟨by linarith, by linarith, by linarith⟩
  · intro q hq
    rw [ParameterDescription.setLimits] at hq
    by_cases hord : v1 ≥ v2
    · simp [hord] at hq
    · simp only [hord, if_false, Except.ok.injEq] at hq
      subst hq
      refine ⟨rfl, ?_⟩
      intro l u hlu
      simp only [Option.some.injEq, Prod.mk.injEq] at hlu
      obtain ⟨h1, h2⟩ := hlu
      subst h1; subst h2
      exact lt_of_not_ge hord

/-- C4 witness: the amended guarantees exercised at concrete inputs. -/
theorem limits_invariant_amended_witness :
    ParamInvariant ((ParameterDescription.create "p" 3 none false).setValue 7
      (some (0, 5)) false)
    ∧ ParamInvariant ({ name := "p", value := 2, limits := some (1, 3),
                        fixed := false } : ParameterDescription)
    ∧ ParamInvariant ({ name := "p", value := 10, limits := some (9, 12),
                        fixed := false } : ParameterDescription) := by
  refine ⟨?_, ?_, ?_⟩
  · exact (limits_invariant_amended (ParameterDescription.create "p" 3 none false)
      7 0 5 0 0 0 0 0 false).2.1 (by norm_num)
  · exact (limits_invariant_amended
      { name := "p", value := 2, limits := none, fixed := false }
      0 0 0 (1/2) 0 0 0 0 false).2.2.1 (by norm_num)
      { name := "p", value := 2, limits := some (1, 3), fixed := false }
      (by norm_num [ParameterDescription.setTolerance])
  · exact (limits_invariant_amended
      { name := "p", value := 10, limits := none, fixed := false }
      0 0 0 0 1 2 0 0 false).2.2.2.1
      { name := "p", value := 10, limits := some (9, 12), fixed := false }
      (by norm_num [ParameterDescription.setLimitsRel,
        ParameterDescription.setLimits])

/-- C5: functionSetIndices cannot produce the claimed index list for a model
with two or more function sets.  With zero or one set the loop never runs and
the result is the list holding 0 alone; as soon as the loop runs, the read of
the nonexistent attribute functionSets resolves through getattr to a lookup
of a function set NAMED functionSets, which raises KeyError, so the claimed
value, 0 followed by the parameter count 2 of the first set, is never
returned. -/
theorem functionSetIndices_bug_spec :
    ModelDescription.functionSetIndices { options := [], _functionSets := [] }
      = .ok [0]
    ∧ ModelDescription.functionSetIndices
        { options := [], _functionSets := [FunctionSetDescription.create "a"] }
      = .ok [0]
    ∧ ModelDescription.functionSetIndices
        { options := [],
          _functionSets := [FunctionSetDescription.create "a",
                            FunctionSetDescription.create "b"] }
      = .error (.keyError "FunctionSet functionSets not found.")
    ∧ (FunctionSetDescription.create "a").parameterList.length = 2 := by
  refine ⟨rfl, rfl, rfl, rfl⟩

/-- C6: constructing a SimpleModel from a Model demands exactly one function
set (ValueError otherwise), installs that set and delegates attribute-style
lookup to it; with no argument it installs one empty set named fs; any other
argument raises the invalid-type ValueError. -/
theorem simpleModel_init_spec (m : ModelDescription) (t : String) :
    (m._functionSets.length ≠ 1 →
      SimpleModelDescription.init (.fromModel m)
        = .error (.valueError "Original model must have only one function set."))
    ∧ (∀ fs, m._functionSets = [fs] →
      SimpleModelDescription.init (.fromModel m)
        = .ok { options := [], _functionSets := [fs] }
      ∧ ∀ attr,
          SimpleModelDescription.getattr { options := [], _functionSets := [fs] } attr
            = fs.getitem attr)
    ∧ (SimpleModelDescription.init .noArg
        = .ok { options := [],
                _functionSets := [FunctionSetDescription.create "fs"] }
      ∧ (FunctionSetDescription.create "fs")._functions = [])
    ∧ SimpleModelDescription.init (.other t)
        = .error (.valueError ("Invalid type: " ++ t)) := by
  refine ⟨?_, ?_, ⟨?_, rfl⟩, rfl⟩
  · intro hlen
    rw [SimpleModelDescription.init]
    match hm : m._functionSets with
    | [] => rfl
    | [fs] => exact absurd (by rw [hm]; rfl) hlen
    | a :: b :: rest => rfl
  · intro fs hm
    constructor
    · rw [SimpleModelDescription.init, hm]
      simp [ModelDescription.addFunctionSet, ModelDescription._contains]
    · intro attr; rfl
  · rw [SimpleModelDescription.init]
    simp [ModelDescription.addFunctionSet, ModelDescription._contains]

/-- C6 witness: two sets rejected, one set accepted with delegated lookup. -/
theorem simpleModel_init_spec_witness :
    SimpleModelDescription.init (.fromModel
        { options := [],
          _functionSets := [FunctionSetDescription.create "a",
                            FunctionSetDescription.create "b"] })
      = .error (.valueError "Original model must have only one function set.")
    ∧ SimpleModelDescription.init (.fromModel
        { options := [],
          _functionSets := [FunctionSetDescription.create "a"] })
      = .ok { options := [],
              _functionSets := [FunctionSetDescription.create "a"] }
    ∧ SimpleModelDescription.getattr
        { options := [], _functionSets := [FunctionSetDescription.create "a"] }
        "Gaussian"
      = (FunctionSetDescription.create "a").getitem "Gaussian"
    ∧ SimpleModelDescription.init (.other "int")
      = .error (.valueError "Invalid type: int") := by
  refine ⟨?_, ?_, ?_, ?_⟩
  · exact (simpleModel_init_spec
      { options := [],
        _functionSets := [FunctionSetDescription.create "a",
                          FunctionSetDescription.create "b"] } "int").1
      (by decide)
  · exact ((simpleModel_init_spec
      { options := [],
        _functionSets := [FunctionSetDescription.create "a"] } "int").2.1
      (FunctionSetDescription.create "a") rfl).1
  · exact ((simpleModel_init_spec
      { options := [],
        _functionSets := [FunctionSetDescription.create "a"] } "int").2.1
      (FunctionSetDescription.create "a") rfl).2 "Gaussian"
  · exact (simpleModel_init_spec
      { options := [], _functionSets := [] } "int").2.2.2

/-
Support lemmas for the copy independence theorem.
-/

/-- Reading below the length of the left part of an appended store reads the
left part. -/
theorem read_append_left (s t : Store) (a : Nat) (h : a < s.length) :
    Store.read (s ++ t) a = Store.read s a := by
  simp [Store.read, List.getElem?_append_left h]

/-- Reading a freshly appended cell returns its content. -/
theorem read_concat_length (s : Store) (p : ParameterDescription) :
    Store.read (s ++ [p]) s.length = p := by
  simp [Store.read, List.getElem?_concat_length]

/-- Writing one address never changes a read at a different address. -/
theorem read_write_ne (s : Store) (a b : Nat) (p : ParameterDescription)
    (h : a ≠ b) : Store.read (Store.write s a p) b = Store.read s b := by
  simp [Store.read, Store.write, List.getElem?_set_ne h]

/-- Unfolding equation for copyParams on a cons cell. -/
theorem copyParams_cons (s : Store) (a : Nat) (rest : List Nat) :
    copyParams s (a :: rest)
      = (s.length :: (copyParams (s ++ [Store.read s a]) rest).1,
         (copyParams (s ++ [Store.read s a]) rest).2) := rfl

/-- Core facts about copyParams: the store only grows, the fresh addresses
all sit beyond the old store, and when the source addresses are valid the
fresh cells hold exactly the source values. -/
theorem copyParams_spec (addrs : List Nat) (s : Store) :
    (∃ ext : Store, (copyParams s addrs).2 = s ++ ext)
    ∧ (∀ b ∈ (copyParams s addrs).1, s.length ≤ b)
    ∧ ((∀ a ∈ addrs, a < s.length) →
        (copyParams s addrs).1.map (Store.read (copyParams s addrs).2)
          = addrs.map (Store.read s)) := by
  induction addrs generalizing s with
  | nil =>
    exact ⟨⟨[], by simp [copyParams]⟩, by simp [copyParams],
      fun _ => by simp [copyParams]⟩
  | cons a rest ih =>
    obtain ⟨⟨ext1, hext⟩, hge, hval⟩ := ih (s ++ [Store.read s a])
    refine ⟨⟨Store.read s a :: ext1, ?_⟩, ?_, ?_⟩
    · rw [copyParams_cons]
      simpa using hext
    · rw [copyParams_cons]
      intro b hb
      rcases List.mem_cons.mp hb with hb | hb
      · omega
      · have := hge b hb
        simp only [List.length_append, List.length_cons, List.length_nil] at this
        omega
    · intro hv
      rw [copyParams_cons]
      simp only [List.map_cons]
      have hlen : s.length < (s ++ [Store.read s a]).length := by simp
      have hv1 : ∀ x ∈ rest, x < (s ++ [Store.read s a]).length := by
        intro x hx
        have := hv x (List.mem_cons_of_mem a hx)
        simp only [List.length_append, List.length_cons, List.length_nil]
        omega
      have hhead : Store.read (copyParams (s ++ [Store.read s a]) rest).2 s.length
          = Store.read s a := by
        rw [hext, read_append_left _ _ _ hlen, read_concat_length]
      have htail : (copyParams (s ++ [Store.read s a]) rest).1.map
            (Store.read (copyParams (s ++ [Store.read s a]) rest).2)
          = rest.map (Store.read s) := by
        rw [hval hv1]
        apply List.map_congr_left
        intro x hx
        exact read_append_left _ _ _ (hv x (List.mem_cons_of_mem a hx))
      rw [hhead, htail]

/-- Copying a list of valid addresses yields an independent copy: same
values, originals untouched, and writes on either side invisible to the
other. -/
theorem copy_independent (addrs : List Nat) (s : Store)
    (hv : ∀ a ∈ addrs, a < s.length) :
    IndependentCopy s (copyParams s addrs).2 addrs (copyParams s addrs).1 := by
  obtain ⟨⟨ext, hext⟩, hge, hval⟩ := copyParams_spec addrs s
  refine ⟨hval hv, ?_, ?_, ?_⟩
  · apply List.map_congr_left
    intro a ha
    rw [hext]
    exact read_append_left _ _ _ (hv a ha)
  · intro a ha q b hb
    exact read_write_ne _ _ _ _ (by have := hge a ha; have := hv b hb; omega)
  · intro b hb q a ha
    exact read_write_ne _ _ _ _ (by have := hge a ha; have := hv b hb; omega)

/-- copyParams distributes over list append, threading the store. -/
theorem copyParams_append (l1 l2 : List Nat) (s : Store) :
    copyParams s (l1 ++ l2)
      = ((copyParams s l1).1 ++ (copyParams (copyParams s l1).2 l2).1,
         (copyParams (copyParams s l1).2 l2).2) := by
  induction l1 generalizing s with
  | nil => simp [copyParams]
  | cons a rest ih =>
    rw [List.cons_append, copyParams_cons, ih, copyParams_cons]
    rfl

/-- deepcopy of a function copies exactly its address list. -/
theorem hfd_deepcopy_comm (f : HFunctionDescription) (s : Store) :
    (HFunctionDescription.deepcopy s f).1.addrs = (copyParams s f.addrs).1
    ∧ (HFunctionDescription.deepcopy s f).2 = (copyParams s f.addrs).2 :=
  ⟨rfl, rfl⟩

/-- deepcopy of a function list copies exactly the flattened address list. -/
theorem deepcopyFunctionList_comm (fl : List HFunctionDescription) (s : Store) :
    ((deepcopyFunctionList s fl).1.map HFunctionDescription.addrs).flatten
        = (copyParams s ((fl.map HFunctionDescription.addrs).flatten)).1
    ∧ (deepcopyFunctionList s fl).2
        = (copyParams s ((fl.map HFunctionDescription.addrs).flatten)).2 := by
  induction fl generalizing s with
  | nil => simp [deepcopyFunctionList, copyParams]
  | cons f rest ih =>
    obtain ⟨ih1, ih2⟩ := ih (HFunctionDescription.deepcopy s f).2
    simp only [deepcopyFunctionList, List.map_cons, List.flatten_cons,
      copyParams_append]
    rw [ih1, ih2]
    exact ⟨rfl, rfl⟩

/-- deepcopy of a function set copies exactly its address list. -/
theorem hfs_deepcopy_comm (fs : HFunctionSetDescription) (s : Store) :
    (HFunctionSetDescription.deepcopy s fs).1.addrs = (copyParams s fs.addrs).1
    ∧ (HFunctionSetDescription.deepcopy s fs).2 = (copyParams s fs.addrs).2 := by
  obtain ⟨h1, h2⟩ := deepcopyFunctionList_comm fs.functions
    ((s ++ [Store.read s fs.x0]) ++ [Store.read (s ++ [Store.read s fs.x0]) fs.y0])
  constructor
  · show List.length s :: List.length (s ++ [Store.read s fs.x0]) ::
        ((deepcopyFunctionList ((s ++ [Store.read s fs.x0]) ++
            [Store.read (s ++ [Store.read s fs.x0]) fs.y0]) fs.functions).1.map
          HFunctionDescription.addrs).flatten
      = (copyParams s fs.addrs).1
    rw [h1]
    rfl
  · show (deepcopyFunctionList ((s ++ [Store.read s fs.x0]) ++
        [Store.read (s ++ [Store.read s fs.x0]) fs.y0]) fs.functions).2
      = (copyParams s fs.addrs).2
    rw [h2]
    rfl

/-- deepcopy of a function-set list copies exactly the flattened address
list. -/
theorem deepcopyFunctionSetList_comm (l : List HFunctionSetDescription)
    (s : Store) :
    ((deepcopyFunctionSetList s l).1.map HFunctionSetDescription.addrs).flatten
        = (copyParams s ((l.map HFunctionSetDescription.addrs).flatten)).1
    ∧ (deepcopyFunctionSetList s l).2
        = (copyParams s ((l.map HFunctionSetDescription.addrs).flatten)).2 := by
  induction l generalizing s with
  | nil => simp [deepcopyFunctionSetList, copyParams]
  | cons fs rest ih =>
    obtain ⟨ih1, ih2⟩ := ih (HFunctionSetDescription.deepcopy s fs).2
    obtain ⟨hc1, hc2⟩ := hfs_deepcopy_comm fs s
    simp only [deepcopyFunctionSetList, List.map_cons, List.flatten_cons,
      copyParams_append]
    rw [ih1, ih2, hc1, hc2]
    exact ⟨rfl, rfl⟩

/-- deepcopy of a model copies exactly its address list. -/
theorem hmodel_deepcopy_comm (m : HModelDescription) (s : Store) :
    (HModelDescription.deepcopy s m).1.addrs = (copyParams s m.addrs).1
    ∧ (HModelDescription.deepcopy s m).2 = (copyParams s m.addrs).2 := by
  obtain ⟨h1, h2⟩ := deepcopyFunctionSetList_comm m.functionSets s
  exact ⟨h1, h2⟩

/-- C3: deepcopy of a Function, FunctionSet or Model yields a copy whose
parameters initially hold the same values as the originals, while
overwriting any parameter reachable from the copy leaves every parameter of
the original untouched and conversely, provided the original addresses are
valid in the store. -/
theorem deepcopy_independence_spec (s : Store) (f : HFunctionDescription)
    (fs : HFunctionSetDescription) (m : HModelDescription)
    (hf : ∀ a ∈ f.addrs, a < s.length)
    (hfs : ∀ a ∈ fs.addrs, a < s.length)
    (hm : ∀ a ∈ m.addrs, a < s.length) :
    IndependentCopy s (HFunctionDescription.deepcopy s f).2 f.addrs
        (HFunctionDescription.deepcopy s f).1.addrs
    ∧ IndependentCopy s (HFunctionSetDescription.deepcopy s fs).2 fs.addrs
        (HFunctionSetDescription.deepcopy s fs).1.addrs
    ∧ IndependentCopy s (HModelDescription.deepcopy s m).2 m.addrs
        (HModelDescription.deepcopy s m).1.addrs := by
  refine ⟨?_, ?_, ?_⟩
  · rw [(hfd_deepcopy_comm f s).1, (hfd_deepcopy_comm f s).2]
    exact copy_independent f.addrs s hf
  · rw [(hfs_deepcopy_comm fs s).1, (hfs_deepcopy_comm fs s).2]
    exact copy_independent fs.addrs s hfs
  · rw [(hmodel_deepcopy_comm m s).1, (hmodel_deepcopy_comm m s).2]
    exact copy_independent m.addrs s hm

/-- Demo store for the copy independence witness. -/
def demoStore : Store :=
  [ParameterDescription.create "X0" 1 none false,
   ParameterDescription.create "Y0" 2 none false,
   ParameterDescription.create "I_0" 3 none false,
   ParameterDescription.create "sigma" 4 none false]

/-- Demo heap-level function referencing the last two demo cells. -/
def demoFunc : HFunctionDescription :=
  { funcType := "Gaussian", name := "Gaussian", params := [2, 3] }

/-- Demo heap-level function set over all four demo cells. -/
def demoSet : HFunctionSetDescription :=
  { name := "fs", x0 := 0, y0 := 1, functions := [demoFunc] }

/-- Demo heap-level model owning the demo set. -/
def demoModel : HModelDescription :=
  { options := [], functionSets := [demoSet] }

/-- C3 witness: copy independence at the concrete demo objects. -/
theorem deepcopy_independence_spec_witness :
    IndependentCopy demoStore
        (HFunctionDescription.deepcopy demoStore demoFunc).2 demoFunc.addrs
        (HFunctionDescription.deepcopy demoStore demoFunc).1.addrs
    ∧ IndependentCopy demoStore
        (HFunctionSetDescription.deepcopy demoStore demoSet).2 demoSet.addrs
        (HFunctionSetDescription.deepcopy demoStore demoSet).1.addrs
    ∧ IndependentCopy demoStore
        (HModelDescription.deepcopy demoStore demoModel).2 demoModel.addrs
        (HModelDescription.deepcopy demoStore demoModel).1.addrs :=
  deepcopy_independence_spec demoStore demoFunc demoSet demoModel
    (by decide) (by decide) (by decide)

end Imfit
